import Mathlib

/-!
Verification of the bird-monitor survey application (src/bird_app.py).

The file shallowly embeds the store and query pipeline of the app:
`load_data`/`save_data` (the CSV backing store, modelled as an optional
table), the form-submission handler of tab 1 (building `species_entries`,
the "Add Other Species" guard, the empty-submission warning, and the
concat-and-save append), and the tab 2 view pipeline (location/date
filters, map data, total count, species summary, CSV download).

Machine-independent conventions: pandas data frames over the fixed schema
become a `Table` (column names plus a list of `Record` rows); the store
file becomes `Option Table` (`none` = file absent); counts are `Nat`
(the form widgets enforce `min_value=0`); coordinates are `Rat` (the two
literals 27.042 and -82.430 are exact decimals, and the code only ever
copies them); dates are a `CalDate` triple (the form's date input produces
a calendar date, and the view's `pd.to_datetime(...).dt.date` round-trips
it to the same calendar date).
-/

/-- A calendar date, as produced by the form's date input and as compared by
the view's date filter (`pd.to_datetime(df["Date"]).dt.date`). -/
structure CalDate where
  year : Nat
  month : Nat
  day : Nat
deriving DecidableEq

/-- One survey record: a row of the backing store, in the fixed 14-column
schema (src/bird_app.py lines 32-36 and 124-131). -/
structure Record where
  date : CalDate
  location : String
  recorder : String
  start_time : String
  end_time : String
  wind : String
  precipitation : String
  tide : String
  temperature : String
  species : String
  count_le_50m : Nat
  count_gt_50m : Nat
  flythrough : Nat
  notes : String
deriving DecidableEq

/-- The fixed column schema used to type the empty store
(src/bird_app.py lines 32-36). -/
def fixedColumns : List String :=
  ["Date", "Location", "Recorder", "Start Time", "End Time",
   "Wind", "Precipitation", "Tide", "Temperature",
   "Species", "Count_le_50m", "Count_gt_50m", "Flythrough", "Notes"]

/-- A loaded data frame: its column names and its rows, in order. -/
structure Table where
  cols : List String
  rows : List Record
deriving DecidableEq

/-- The persistent backing store (`bird_data.csv`): `none` when the file does
not exist yet. -/
abbrev Store := Option Table

/-- `load_data` (src/bird_app.py lines 28-37): return the stored table when
the file exists, otherwise an empty frame carrying the fixed columns.  The
function is total: the store-absent case returns a value instead of failing. -/
def load_data : Store → Table
  | some t => t
  | none => { cols := fixedColumns, rows := [] }

/-- `save_data` (src/bird_app.py lines 39-40): `df.to_csv(FILE_NAME,
index=False)` overwrites the store with the given frame. -/
def save_data (df : Table) : Store :=
  some df

/-- The fixed species list of the form grid (src/bird_app.py lines 18-26). -/
def SPECIES_LIST : List String :=
  ["Palm Warbler (PAWA)", "Red-bellied Woodpecker (RBWO)", "Great Egret (GREG)",
   "Blue Jay (BLJA)", "Carolina Wren (CAWR)", "Fish Crow (FICR)",
   "Northern Cardinal (NOCA)", "Tricolored Heron (TRHE)", "Red-shouldered Hawk (RSHA)",
   "Yellow-rumped Warbler (YRWA)", "Wood Stork (WOST)", "White Ibis (WHIB)",
   "Eastern Phoebe (EAPH)", "Little Blue Heron (LBHE)", "Mourning Dove (MODO)",
   "Blue-gray Gnatcatcher (BGGN)", "Gray Catbird (GRCA)", "Common Grackle (COGR)",
   "Tufted Titmouse (TUTI)", "Downy Woodpecker (DOWO)", "Sandhill Crane (SACR)"]

/-- Latitude of Alligator Creek: the literal 27.042, i.e. 13521/500 in
lowest terms. -/
def latAC : Rat :=
  ⟨13521, 500, by norm_num, by norm_num⟩

/-- Longitude of Alligator Creek: the literal -82.430, i.e. -8243/100 in
lowest terms. -/
def lonAC : Rat :=
  ⟨-8243, 100, by norm_num, by norm_num⟩

/-- The known-location coordinate mapping (src/bird_app.py lines 11-15):
location name to (latitude, longitude). -/
def LOCATION_COORDS : List (String × Rat × Rat) :=
  [("Alligator Creek", latAC, lonAC)]

/-- The numeric and notes widgets of one species row of the form grid
(src/bird_app.py lines 87-93 and 104-107). -/
structure SpeciesInput where
  c_50 : Nat
  c_gt50 : Nat
  c_fly : Nat
  notes : String
deriving DecidableEq

/-- One element of `species_entries` (src/bird_app.py lines 96-99). -/
structure Entry where
  species : String
  count_le_50m : Nat
  count_gt_50m : Nat
  flythrough : Nat
  notes : String
deriving DecidableEq

/-- The field-conditions half of the form (src/bird_app.py lines 54-74). -/
structure Conditions where
  entry_date : CalDate
  location : String
  recorder : String
  start_time : String
  end_time : String
  wind : String
  precip : String
  tide : String
  temp : String
deriving DecidableEq

/-- Building `species_entries` over the form grid (src/bird_app.py lines
83-99): one candidate per species row, kept exactly when one of its three
counts is positive. -/
def species_entries (inputs : List (String × SpeciesInput)) : List Entry :=
  (inputs.filter fun p => p.2.c_50 > 0 || p.2.c_gt50 > 0 || p.2.c_fly > 0).map
    fun p =>
      { species := p.1, count_le_50m := p.2.c_50, count_gt_50m := p.2.c_gt50,
        flythrough := p.2.c_fly, notes := p.2.notes }

/-- The "Add Other Species" guard (src/bird_app.py lines 112-116): the
free-text row joins the batch only when `other_sp` is truthy (a non-empty
string) and one of its counts is positive. -/
def otherEntry (other_sp : String) (o : SpeciesInput) : List Entry :=
  if other_sp != "" && (o.c_50 > 0 || o.c_gt50 > 0 || o.c_fly > 0) then
    [{ species := other_sp, count_le_50m := o.c_50, count_gt_50m := o.c_gt50,
       flythrough := o.c_fly, notes := o.notes }]
  else []

/-- The full submission batch: the grid entries followed by the optional
free-text entry (src/bird_app.py lines 95-116). -/
def buildEntries (inputs : List (String × SpeciesInput)) (other_sp : String)
    (o : SpeciesInput) : List Entry :=
  species_entries inputs ++ otherEntry other_sp o

/-- One new store row built from the field conditions and a species entry
(src/bird_app.py lines 123-132). -/
def mkRow (c : Conditions) (e : Entry) : Record :=
  { date := c.entry_date, location := c.location, recorder := c.recorder,
    start_time := c.start_time, end_time := c.end_time, wind := c.wind,
    precipitation := c.precip, tide := c.tide, temperature := c.temp,
    species := e.species, count_le_50m := e.count_le_50m,
    count_gt_50m := e.count_gt_50m, flythrough := e.flythrough,
    notes := e.notes }

/-- The submit handler (src/bird_app.py lines 111-136).  Returns the store
after the submission and whether the "No bird counts entered!" warning was
shown.  An empty batch warns and performs no write; otherwise the store is
loaded, the new rows are concatenated after the existing ones
(`pd.concat([df, pd.DataFrame(new_rows)], ignore_index=True)`, which keeps
the shared columns and appends the rows), and the result is saved. -/
def submit (c : Conditions) (inputs : List (String × SpeciesInput))
    (other_sp : String) (o : SpeciesInput) (store : Store) : Store × Bool :=
  let entries := buildEntries inputs other_sp o
  if entries.isEmpty then
    (store, true)
  else
    let df := load_data store
    let new_rows := entries.map (mkRow c)
    (save_data { cols := df.cols, rows := df.rows ++ new_rows }, false)

/-- The tab 2 filter stage (src/bird_app.py lines 153-159): the location
filter applies only when the multiselect is non-empty, then the date filter
applies only when its multiselect is non-empty, comparing calendar dates. -/
def applyFilters (rows : List Record) (loc_f : List String)
    (date_f : List CalDate) : List Record :=
  let r1 := if loc_f = [] then rows
            else rows.filter fun r => decide (r.location ∈ loc_f)
  if date_f = [] then r1
  else r1.filter fun r => decide (r.date ∈ date_f)

/-- pandas `Series.unique`: the distinct values in first-occurrence order;
`seen` accumulates the values already emitted. -/
def uniqueAux {α : Type} [DecidableEq α] (seen : List α) : List α → List α
  | [] => []
  | a :: l => if a ∈ seen then uniqueAux seen l else a :: uniqueAux (a :: seen) l

/-- Distinct values of a list in first-occurrence order. -/
def uniqueList {α : Type} [DecidableEq α] (l : List α) : List α :=
  uniqueAux [] l

/-- Dictionary lookup in a coordinate mapping (`loc in LOCATION_COORDS`
followed by `LOCATION_COORDS[loc]`). -/
def lookupCoords (coords : List (String × Rat × Rat)) (loc : String) :
    Option (Rat × Rat) :=
  (coords.find? fun p => p.1 == loc).map fun p => (p.2.1, p.2.2)

/-- One row of the map frame (src/bird_app.py lines 172-177). -/
structure MapRow where
  location : String
  lat : Rat
  lon : Rat
  records : Nat
deriving DecidableEq

/-- The map-data construction (src/bird_app.py lines 166-179): for each
distinct location of the filtered rows that is in the coordinate mapping,
one row with its coordinates and its filtered-record count.  The mapping
is a parameter; the app passes the constant `LOCATION_COORDS`. -/
def map_data (coords : List (String × Rat × Rat)) (rows : List Record) :
    List MapRow :=
  (uniqueList (rows.map fun r => r.location)).filterMap fun loc =>
    (lookupCoords coords loc).map fun q =>
      { location := loc, lat := q.1, lon := q.2,
        records := (rows.filter fun r => decide (r.location = loc)).length }

/-- `total_birds` (src/bird_app.py lines 192-193): the three column sums of
the filtered frame, added. -/
def total_birds (rows : List Record) : Nat :=
  (rows.map fun r => r.count_le_50m).sum + (rows.map fun r => r.count_gt_50m).sum
    + (rows.map fun r => r.flythrough).sum

/-- The per-row "Total" column (src/bird_app.py line 197). -/
def rowTotal (r : Record) : Nat :=
  r.count_le_50m + r.count_gt_50m + r.flythrough

/-- Code-point lexicographic order on character lists: the string order
pandas uses to sort group keys. -/
def lexLe : List Char → List Char → Bool
  | [], _ => true
  | _ :: _, [] => false
  | a :: as, b :: bs =>
    if a < b then true else if b < a then false else lexLe as bs

/-- The group keys of `groupby("Species")`, which sorts keys ascending
(pandas default `sort=True`). -/
def sortedSpecies (rows : List Record) : List String :=
  List.insertionSort (fun a b : String => lexLe a.data b.data)
    (uniqueList (rows.map fun r => r.species))

/-- Descending order on totalled pairs, for `sort_values(ascending=False)`. -/
def descTotal (a b : String × Nat) : Prop :=
  b.2 ≤ a.2

instance : DecidableRel descTotal :=
  fun a b => Nat.decLe b.2 a.2

instance : IsTotal (String × Nat) descTotal :=
  ⟨fun a b => (Nat.le_total b.2 a.2).imp id id⟩

instance : IsTrans (String × Nat) descTotal :=
  ⟨fun _ _ _ h1 h2 => Nat.le_trans h2 h1⟩

/-- `species_summary` (src/bird_app.py lines 197-198): group the filtered
rows by species, sum each group's per-row totals, and sort the (species,
total) pairs by descending total.  pandas' `sort_values` uses an unstable
quicksort, so its order among equal totals is implementation-defined; the
model fixes the deterministic tie-break that keeps the group-key order. -/
def species_summary (rows : List Record) : List (String × Nat) :=
  List.insertionSort descTotal
    ((sortedSpecies rows).map fun s =>
      (s, ((rows.filter fun r => decide (r.species = s)).map rowTotal).sum))

/-- Whether a CSV cell needs quoting under `csv.QUOTE_MINIMAL`, the pandas
`to_csv` default. -/
def needsQuote (s : String) : Bool :=
  s.data.any fun ch => ch == ',' || ch == '"' || ch == '\n' || ch == '\r'

/-- Double every double quote of the cell, for quoted CSV output. -/
def escapeQuotes (s : String) : String :=
  ⟨s.data.foldr (fun ch acc => if ch == '"' then '"' :: '"' :: acc else ch :: acc) []⟩

/-- Render one CSV cell with minimal quoting. -/
def csvCell (s : String) : String :=
  if needsQuote s then "\"" ++ escapeQuotes s ++ "\"" else s

/-- Zero-pad a month or day number to two digits, as in ISO date output. -/
def pad2 (n : Nat) : String :=
  if n < 10 then "0" ++ toString n else toString n

/-- ISO serialization of a calendar date, as `str(datetime.date)` renders
the Date cell. -/
def showDate (d : CalDate) : String :=
  toString d.year ++ "-" ++ pad2 d.month ++ "-" ++ pad2 d.day

/-- The CSV cell of a record under a given column name. -/
def cellOf (r : Record) : String → String
  | "Date" => showDate r.date
  | "Location" => csvCell r.location
  | "Recorder" => csvCell r.recorder
  | "Start Time" => csvCell r.start_time
  | "End Time" => csvCell r.end_time
  | "Wind" => csvCell r.wind
  | "Precipitation" => csvCell r.precipitation
  | "Tide" => csvCell r.tide
  | "Temperature" => csvCell r.temperature
  | "Species" => csvCell r.species
  | "Count_le_50m" => toString r.count_le_50m
  | "Count_gt_50m" => toString r.count_gt_50m
  | "Flythrough" => toString r.flythrough
  | "Total" => toString (rowTotal r)
  | _ => ""

/-- `DataFrame.to_csv(index=False)`: the comma-joined header line, then one
comma-joined line per row in order, each line ending in a newline, with no
index column. -/
def to_csv (cols : List String) (rows : List Record) : String :=
  String.intercalate "," cols ++ "\n"
    ++ String.join (rows.map fun r =>
        String.intercalate "," (cols.map (cellOf r)) ++ "\n")

/-- The tab 2 download pipeline (src/bird_app.py lines 195-201): when the
filtered frame is non-empty, line 197 adds the computed "Total" column to
`filtered_df` before line 201 serializes it, so the download carries 15
columns; an empty filtered frame is serialized with the 14 fixed columns. -/
def view_export (rows : List Record) : String :=
  let cols := if rows.isEmpty then fixedColumns else fixedColumns ++ ["Total"]
  to_csv cols rows

/-! ### Concrete fixtures used by examples and witnesses -/

/-- A sample record with fixed field conditions, for concrete evaluations. -/
def exRec (sp : String) (a b f : Nat) : Record :=
  { date := ⟨2025, 10, 1⟩, location := "Alligator Creek", recorder := "R",
    start_time := "07:00:00", end_time := "08:00:00", wind := "calm",
    precipitation := "none", tide := "low", temperature := "70F",
    species := sp, count_le_50m := a, count_gt_50m := b, flythrough := f,
    notes := "" }

/-- The three-record example of the species-summary property. -/
def exRecords : List Record :=
  [exRec "X" 2 1 0, exRec "X" 0 0 3, exRec "Y" 1 0 0]

/-- The map-summary example: three records at Alligator Creek and two at an
unknown site. -/
def exRows7 : List Record :=
  [exRec "X" 1 0 0, exRec "Y" 2 0 0, exRec "Z" 1 1 0,
   { exRec "W" 1 0 0 with location := "Unknown Site" },
   { exRec "V" 1 0 0 with location := "Unknown Site" }]

/-- Sample field conditions for concrete submissions. -/
def cond0 : Conditions :=
  { entry_date := ⟨2025, 10, 1⟩, location := "Alligator Creek", recorder := "R",
    start_time := "07:00:00", end_time := "08:00:00", wind := "calm",
    precip := "none", tide := "low", temp := "70F" }

/-- A one-species form state with a positive count. -/
def inputs0 : List (String × SpeciesInput) :=
  [("Blue Jay (BLJA)", ⟨1, 0, 0, ""⟩)]

/-- An all-zero species input row. -/
def zeroInput : SpeciesInput :=
  ⟨0, 0, 0, ""⟩

/-- A record exported in the counterexample run. -/
def sampleRecord : Record :=
  exRec "Blue Jay (BLJA)" 2 1 0

/-! ### Helper lemmas -/

theorem mem_uniqueAux {α : Type} [DecidableEq α] (l : List α) :
    ∀ (seen : List α) (a : α), a ∈ uniqueAux seen l ↔ a ∈ l ∧ a ∉ seen := by
  induction l with
  | nil =>
    intro seen a
    simp [uniqueAux]
  | cons b t ih =>
    intro seen a
    rw [uniqueAux]
    split
    · next hb =>
      rw [ih]
      simp only [List.mem_cons]
      constructor
      · rintro ⟨h1, h2⟩
        exact ⟨Or.inr h1, h2⟩
      · rintro ⟨h1, h2⟩
        refine ⟨?_, h2⟩
        rcases h1 with rfl | h1
        · exact absurd hb h2
        · exact h1
    · next hb =>
      simp only [List.mem_cons, ih, not_or]
      by_cases hab : a = b
      · subst hab
        simp [hb]
      · simp only [hab, false_or]
        tauto
  
theorem mem_uniqueList {α : Type} [DecidableEq α] (l : List α) (a : α) :
    a ∈ uniqueList l ↔ a ∈ l := by
  rw [uniqueList, mem_uniqueAux]
  simp

theorem nodup_uniqueAux {α : Type} [DecidableEq α] (l : List α) :
    ∀ seen : List α, (uniqueAux seen l).Nodup := by
  induction l with
  | nil =>
    intro seen
    simp [uniqueAux]
  | cons b t ih =>
    intro seen
    rw [uniqueAux]
    split
    · exact ih seen
    · refine List.nodup_cons.mpr ⟨?_, ih (b :: seen)⟩
      intro hb
      exact ((mem_uniqueAux t (b :: seen) b).mp hb).2 (List.mem_cons_self b seen)

theorem nodup_uniqueList {α : Type} [DecidableEq α] (l : List α) :
    (uniqueList l).Nodup :=
  nodup_uniqueAux l []

theorem buildEntries_pos (inputs : List (String × SpeciesInput)) (other_sp : String)
    (o : SpeciesInput) :
    ∀ e ∈ buildEntries inputs other_sp o,
      0 < e.count_le_50m ∨ 0 < e.count_gt_50m ∨ 0 < e.flythrough := by
  intro e he
  rcases List.mem_append.mp he with h | h
  · rcases List.mem_map.mp h with ⟨p, hp, rfl⟩
    have hkeep := (List.mem_filter.mp hp).2
    simp only [Bool.or_eq_true, decide_eq_true_eq] at hkeep
    simpa using or_assoc.mp hkeep
  · rw [otherEntry] at h
    split at h
    · next hc =>
      simp only [List.mem_singleton] at h
      subst h
      have hkeep := (Bool.and_eq_true _ _).mp hc |>.2
      simp only [Bool.or_eq_true, decide_eq_true_eq] at hkeep
      simpa using or_assoc.mp hkeep
    · cases h

/-! ### Claims -/

/-- C4: `load_data` returns the full ordered record collection when the
backing store exists, and when it is absent it returns an empty collection
carrying the fixed 14-column schema; being a total function, it raises no
exception in the store-absent case. -/
theorem load_data_spec :
    (∀ t : Table, load_data (some t) = t)
    ∧ load_data none = { cols := fixedColumns, rows := [] }
    ∧ fixedColumns.length = 14 :=
  ⟨fun _ => rfl, rfl, rfl⟩

/-- C1: for every existing store contents `R` and submitted batch (each
entry with some positive count), the submission loads the store, appends
the batch rows after `R` in order, and persists, so a subsequent load
returns `R` followed by the batch, of length `|R| + |B|`. -/
theorem append_batch_additive (R : List Record) (cols : List String)
    (c : Conditions) (inputs : List (String × SpeciesInput)) (other_sp : String)
    (o : SpeciesInput)
    (hpos : ∀ e ∈ buildEntries inputs other_sp o,
      0 < e.count_le_50m ∨ 0 < e.count_gt_50m ∨ 0 < e.flythrough) :
    (load_data (submit c inputs other_sp o (some ⟨cols, R⟩)).1).rows
      = R ++ (buildEntries inputs other_sp o).map (mkRow c)
    ∧ (load_data (submit c inputs other_sp o (some ⟨cols, R⟩)).1).rows.length
      = R.length + (buildEntries inputs other_sp o).length := by
  rcases hE : buildEntries inputs other_sp o with _ | ⟨e, es⟩ <;>
    simp [submit, hE, load_data, save_data]

/-- Witness for C1 at a concrete one-entry submission over an empty store. -/
theorem append_batch_additive_witness :
    (load_data (submit cond0 inputs0 "" zeroInput (some ⟨fixedColumns, []⟩)).1).rows
      = ([] : List Record) ++ (buildEntries inputs0 "" zeroInput).map (mkRow cond0)
    ∧ (load_data (submit cond0 inputs0 "" zeroInput (some ⟨fixedColumns, []⟩)).1).rows.length
      = ([] : List Record).length + (buildEntries inputs0 "" zeroInput).length :=
  append_batch_additive [] fixedColumns cond0 inputs0 "" zeroInput (by decide)

/-- C2: every record in the store after a form submission either was already
in the store or has at least one positive count field; an all-zero entry is
never persisted by a submission. -/
theorem submit_only_positive (c : Conditions) (inputs : List (String × SpeciesInput))
    (other_sp : String) (o : SpeciesInput) (store : Store) (r : Record)
    (hr : r ∈ (load_data (submit c inputs other_sp o store).1).rows) :
    r ∈ (load_data store).rows
      ∨ 0 < r.count_le_50m ∨ 0 < r.count_gt_50m ∨ 0 < r.flythrough := by
  simp only [submit] at hr
  split at hr
  · exact Or.inl hr
  · simp only [save_data, load_data, List.mem_append, List.mem_map] at hr
    rcases hr with h | ⟨e, he, rfl⟩
    · exact Or.inl h
    · right
      have hp := buildEntries_pos inputs other_sp o e he
      simpa [mkRow] using hp

/-- Witness for C2 at a concrete submission of one positive-count entry. -/
theorem submit_only_positive_witness :
    mkRow cond0 ⟨"Blue Jay (BLJA)", 1, 0, 0, ""⟩ ∈ (load_data none).rows
      ∨ 0 < (mkRow cond0 ⟨"Blue Jay (BLJA)", 1, 0, 0, ""⟩).count_le_50m
      ∨ 0 < (mkRow cond0 ⟨"Blue Jay (BLJA)", 1, 0, 0, ""⟩).count_gt_50m
      ∨ 0 < (mkRow cond0 ⟨"Blue Jay (BLJA)", 1, 0, 0, ""⟩).flythrough :=
  submit_only_positive cond0 inputs0 "" zeroInput none
    (mkRow cond0 ⟨"Blue Jay (BLJA)", 1, 0, 0, ""⟩) (by decide)

/-- C9: a submission with no positive-count species entry issues the
user-visible warning and performs no write: the store is returned unchanged,
so a subsequent load yields the prior records. -/
theorem empty_submission_no_write (c : Conditions)
    (inputs : List (String × SpeciesInput)) (other_sp : String)
    (o : SpeciesInput) (store : Store)
    (hz : ∀ p ∈ inputs, p.2.c_50 = 0 ∧ p.2.c_gt50 = 0 ∧ p.2.c_fly = 0)
    (ho : other_sp = "" ∨ (o.c_50 = 0 ∧ o.c_gt50 = 0 ∧ o.c_fly = 0)) :
    submit c inputs other_sp o store = (store, true)
    ∧ load_data (submit c inputs other_sp o store).1 = load_data store := by
  have hE : buildEntries inputs other_sp o = [] := by
    rw [buildEntries, species_entries, otherEntry]
    have h1 : inputs.filter
        (fun p => p.2.c_50 > 0 || p.2.c_gt50 > 0 || p.2.c_fly > 0) = [] := by
      rw [List.filter_eq_nil_iff]
      intro p hp
      rcases hz p hp with ⟨ha, hb, hc⟩
      simp [ha, hb, hc]
    rw [h1]
    rcases ho with rfl | ⟨ha, hb, hc⟩
    · simp
    · simp [ha, hb, hc]
  refine ⟨?_, ?_⟩ <;> simp [submit, hE]

/-- Witness for C9 at a concrete all-zero submission. -/
theorem empty_submission_no_write_witness :
    submit cond0 [("Palm Warbler (PAWA)", zeroInput)] "" zeroInput none
      = (none, true)
    ∧ load_data (submit cond0 [("Palm Warbler (PAWA)", zeroInput)] "" zeroInput none).1
      = load_data none :=
  empty_submission_no_write cond0 [("Palm Warbler (PAWA)", zeroInput)] "" zeroInput
    none (by decide) (Or.inl rfl)

/-- C10: a free-text "Other Species" row with a blank species name is never
added to the batch, even with positive counts: the persisted store after the
submission consists of the prior rows followed only by the grid entries. -/
theorem blank_other_dropped (c : Conditions)
    (inputs : List (String × SpeciesInput)) (o : SpeciesInput) (store : Store)
    (hpos : 0 < o.c_50 ∨ 0 < o.c_gt50 ∨ 0 < o.c_fly) :
    otherEntry "" o = []
    ∧ (load_data (submit c inputs "" o store).1).rows
        = (load_data store).rows ++ (species_entries inputs).map (mkRow c) := by
  have h1 : otherEntry "" o = [] := by simp [otherEntry]
  have hB : buildEntries inputs "" o = species_entries inputs := by
    simp [buildEntries, h1]
  refine ⟨h1, ?_⟩
  rcases hs : species_entries inputs with _ | ⟨e, es⟩ <;>
    simp [submit, hB, hs, load_data, save_data]

/-- Witness for C10 at a concrete blank-named positive-count row. -/
theorem blank_other_dropped_witness :
    otherEntry "" ⟨2, 0, 0, "seen"⟩ = []
    ∧ (load_data (submit cond0 inputs0 "" ⟨2, 0, 0, "seen"⟩ none).1).rows
        = (load_data none).rows ++ (species_entries inputs0).map (mkRow cond0) :=
  blank_other_dropped cond0 inputs0 ⟨2, 0, 0, "seen"⟩ none (by decide)

/-- C5: combined filtering is conjunctive: the filter stage returns exactly
the subsequence of records passing both filters, each filter passing a record
when its selection set is empty (pass-through) or contains the record's
Location, respectively the record's calendar date. -/
theorem applyFilters_conjunctive (rows : List Record) (loc_f : List String)
    (date_f : List CalDate) :
    applyFilters rows loc_f date_f
      = rows.filter fun r =>
          (decide (loc_f = []) || decide (r.location ∈ loc_f))
          && (decide (date_f = []) || decide (r.date ∈ date_f)) := by
  rw [applyFilters]
  by_cases hl : loc_f = [] <;> by_cases hd : date_f = [] <;>
    simp [hl, hd, List.filter_filter, Bool.and_comm]

/-- C8: the total count is the sum of the three count fields over all
filtered records, and it is 0 on the empty set. -/
theorem total_birds_spec (rows : List Record) :
    total_birds rows = (rows.map rowTotal).sum ∧ total_birds [] = 0 := by
  refine ⟨?_, rfl⟩
  induction rows with
  | nil => rfl
  | cons r rs ih =>
    simp only [total_birds, rowTotal, List.map_cons, List.sum_cons] at ih ⊢
    omega

/-- C6: the species summary maps exactly the species occurring in the
filtered records, assigns each the sum of its records' three count fields,
is ordered by descending total, and on the example records X:(2,1,0),
X:(0,0,3), Y:(1,0,0) yields X:6 then Y:1. -/
theorem species_summary_spec (rows : List Record) :
    (∀ s : String,
        s ∈ (species_summary rows).map Prod.fst
          ↔ s ∈ rows.map fun r => r.species)
    ∧ (∀ p ∈ species_summary rows,
        p.2 = ((rows.filter fun r => decide (r.species = p.1)).map rowTotal).sum)
    ∧ List.Sorted descTotal (species_summary rows)
    ∧ species_summary exRecords = [("X", 6), ("Y", 1)] := by
  have hperm : (species_summary rows).Perm
      ((sortedSpecies rows).map fun s =>
        (s, ((rows.filter fun r => decide (r.species = s)).map rowTotal).sum)) :=
    List.perm_insertionSort _ _
  refine ⟨?_, ?_, ?_, by decide⟩
  · intro s
    rw [(hperm.map Prod.fst).mem_iff, List.map_map]
    have hc : (Prod.fst ∘ fun s : String =>
        (s, ((rows.filter fun r => decide (r.species = s)).map rowTotal).sum))
        = fun s : String => s := rfl
    rw [hc, List.map_id_fun', sortedSpecies]
    simp only [id_eq]
    rw [(List.perm_insertionSort _ _).mem_iff, mem_uniqueList]
  · intro p hp
    rcases List.mem_map.mp (hperm.mem_iff.mp hp) with ⟨s, _, rfl⟩
    rfl
  · exact List.sorted_insertionSort descTotal _

/-- C7: the map summary emits exactly one row per distinct location of the
filtered records that is in the coordinate mapping, carrying that location's
coordinates and its filtered-record count; unmapped locations produce no row
yet stay in the filtered data, and on the example (three Alligator Creek
records, two at an unknown site) the output is the single tuple
("Alligator Creek", 27.042, -82.430, 3). -/
theorem map_data_spec (coords : List (String × Rat × Rat)) (rows : List Record) :
    ((map_data coords rows).map fun m => m.location)
      = (uniqueList (rows.map fun r => r.location)).filter
          (fun loc => (lookupCoords coords loc).isSome)
    ∧ (((map_data coords rows).map fun m => m.location)).Nodup
    ∧ (∀ m ∈ map_data coords rows,
        lookupCoords coords m.location = some (m.lat, m.lon)
        ∧ m.records = (rows.filter fun r => decide (r.location = m.location)).length)
    ∧ map_data LOCATION_COORDS exRows7
        = [{ location := "Alligator Creek", lat := latAC, lon := lonAC,
             records := 3 }]
    ∧ latAC = 27.042 ∧ lonAC = -82.430
    ∧ "Unknown Site" ∈ exRows7.map fun r => r.location := by
  have hkeys : ∀ locs : List String,
      ((locs.filterMap fun loc => (lookupCoords coords loc).map fun q =>
          ({ location := loc, lat := q.1, lon := q.2,
             records := (rows.filter fun r => decide (r.location = loc)).length }
            : MapRow)).map fun m => m.location)
        = locs.filter fun loc => (lookupCoords coords loc).isSome := by
    intro locs
    induction locs with
    | nil => rfl
    | cons a l ih =>
      rcases hq : lookupCoords coords a with _ | q <;>
        simp [List.filterMap_cons, List.filter_cons, hq, ih]
  have h1 : ((map_data coords rows).map fun m => m.location)
      = (uniqueList (rows.map fun r => r.location)).filter
          (fun loc => (lookupCoords coords loc).isSome) := by
    unfold map_data
    exact hkeys _
  refine ⟨h1, ?_, ?_, by decide, ?_, ?_, by decide⟩
  · rw [h1]
    exact (nodup_uniqueList _).filter _
  · intro m hm
    rcases List.mem_filterMap.mp hm with ⟨loc, _, hf⟩
    rcases hq : lookupCoords coords loc with _ | q
    · rw [hq] at hf
      cases hf
    · rw [hq] at hf
      simp only [Option.map_some', Option.some_inj] at hf
      subst hf
      exact ⟨hq, rfl⟩
  · rw [latAC, Rat.mk'_eq_divInt]
    norm_num [Rat.divInt_eq_div]
  · rw [lonAC, Rat.mk'_eq_divInt]
    norm_num [Rat.divInt_eq_div]

/-- C3 counterexample: at a concrete one-record filtered set, the download
produced by the view is not the fixed-schema serialization of that set —
line 197 has added the computed "Total" column to `filtered_df` before
line 201 serializes it, so the artifact carries 15 columns, not 14. -/
theorem view_export_not_fixed_schema :
    view_export [sampleRecord] ≠ to_csv fixedColumns [sampleRecord] := by
  decide

/-- C3 amended: the download is a pure function of the filtered record set;
it is serialized with no index column, one comma-joined line per record after
the comma-joined header, the columns being the fixed 14-column store schema
followed by the computed "Total" column whenever the filtered set is
non-empty (the 14 columns alone when it is empty). -/
theorem view_export_schema (rows : List Record) :
    view_export rows
      = String.intercalate ","
          (fixedColumns ++ if rows.isEmpty then [] else ["Total"]) ++ "\n"
        ++ String.join (rows.map fun r =>
            String.intercalate ","
              ((fixedColumns.map (cellOf r))
                ++ if rows.isEmpty then [] else [toString (rowTotal r)]) ++ "\n") := by
  cases rows with
  | nil => rfl
  | cons r rs =>
    simp only [view_export, to_csv, List.isEmpty_cons, List.map_append,
      Bool.false_eq_true, if_false]
    rfl
